import Mathlib

/-!
Verification of the MicroManagerr backend scaffold.

The repository is a FastAPI application whose endpoints are placeholders:
the only implemented logic is configuration loading (`backend/app/config.py`)
and the "is this service configured" guards in the Sonarr/Radarr route
modules.  We embed the configuration model, the guards, and every route
handler relevant to the claims as pure Lean functions; a handler that can
raise `HTTPException` is embedded as a function into `Except HTTPError`.
FastAPI request validation (pydantic `Field` constraints) is embedded as a
separate validation step that runs before the handler.

The tag-reconciliation engine described by the specification does not exist
in the source tree; its definitions below are explicitly modelled from the
spec text and marked as such.
-/

/-- HTTP error raised by a handler, embedding FastAPI `HTTPException`:
a status code plus a detail message. -/
structure HTTPError where
  status_code : Nat
  detail : String
deriving DecidableEq, Repr

/-- Application settings, embedding `Settings` from `backend/app/config.py`.
Optional string fields default to `none` exactly as the pydantic fields
default to `None`. -/
structure Settings where
  app_name : String := "MicroManagerr"
  debug : Bool := false
  host : String := "0.0.0.0"
  port : Nat := 8000
  database_url : String := "sqlite+aiosqlite:///./data/micromanagerr.db"
  sonarr_url : Option String := none
  sonarr_api_key : Option String := none
  radarr_url : Option String := none
  radarr_api_key : Option String := none
  log_level : String := "INFO"
deriving DecidableEq, Repr

/-- Python truthiness of an `Optional[str]` value: `None` and the empty
string are falsy, every other string is truthy.  Embeds the `bool(x and y)`
idiom used by the configuration properties. -/
def pyTruthyStr : Option String → Bool
  | none => false
  | some s => !(s == "")

/-- Embeds `Settings.sonarr_configured` (config.py lines 154-157):
`bool(self.sonarr_url and self.sonarr_api_key)`. -/
def Settings.sonarr_configured (s : Settings) : Bool :=
  pyTruthyStr s.sonarr_url && pyTruthyStr s.sonarr_api_key

/-- Embeds `Settings.radarr_configured` (config.py lines 159-162):
`bool(self.radarr_url and self.radarr_api_key)`. -/
def Settings.radarr_configured (s : Settings) : Bool :=
  pyTruthyStr s.radarr_url && pyTruthyStr s.radarr_api_key

/-- Request body for POST /test-connection (both services): a URL string
and an API key that pydantic validation constrains to exactly 32
characters. -/
structure ConnectionRequest where
  url : String
  api_key : String
deriving DecidableEq, Repr

/-- Response for a Sonarr/Radarr status check (`SonarrStatusResponse` /
`RadarrStatusResponse`; the two pydantic models have identical fields). -/
structure StatusResponse where
  connected : Bool
  version : Option String := none
  url : Option String := none
  error : Option String := none
deriving DecidableEq, Repr

/-- Embeds `SonarrSeriesResponse` from sonarr.py. -/
structure SonarrSeriesResponse where
  id : Int
  title : String
  year : Int
  path : String
  monitored : Bool
  tags : List Int
  quality_profile_id : Int
deriving DecidableEq, Repr

/-- Embeds `SonarrTagResponse` from sonarr.py. -/
structure SonarrTagResponse where
  id : Int
  label : String
deriving DecidableEq, Repr

/-- Embeds `RadarrMovieResponse` from radarr.py. -/
structure RadarrMovieResponse where
  id : Int
  title : String
  year : Int
  path : String
  monitored : Bool
  tags : List Int
  quality_profile_id : Int
  has_file : Bool
  runtime : Int
deriving DecidableEq, Repr

/-- Embeds `RadarrTagResponse` from radarr.py. -/
structure RadarrTagResponse where
  id : Int
  label : String
deriving DecidableEq, Repr

/-- Embeds `RadarrTagCreateRequest` from radarr.py: a label that pydantic
validation constrains to length 1 through 50. -/
structure RadarrTagCreateRequest where
  label : String
deriving DecidableEq, Repr

namespace Sonarr

/-- The 503 error raised by the Sonarr guard (sonarr.py lines 149-158). -/
def unavailableError : HTTPError :=
  ⟨503, "Sonarr not configured"⟩

/-- Embeds `require_sonarr_configured` (sonarr.py lines 139-158): raises
HTTP 503 when Sonarr is not configured, otherwise returns normally. -/
def require_sonarr_configured (s : Settings) : Except HTTPError Unit :=
  if s.sonarr_configured then Except.ok () else Except.error unavailableError

/-- Embeds `test_sonarr_connection` (sonarr.py lines 221-269): the handler
never reads the stored settings and never raises; it unconditionally
reports a successful connection with a placeholder version and echoes the
submitted URL. -/
def test_connection (c : ConnectionRequest) : StatusResponse :=
  { connected := true
    version := some "(pending implementation)"
    url := some c.url
    error := none }

/-- Embeds `get_all_series` (sonarr.py lines 278-318): guard, then a
placeholder empty list. -/
def get_all_series (s : Settings) : Except HTTPError (List SonarrSeriesResponse) :=
  match require_sonarr_configured s with
  | Except.error e => Except.error e
  | Except.ok _ => Except.ok []

/-- Embeds Sonarr `get_all_tags` (sonarr.py lines 327-358): guard, then a
placeholder empty list. -/
def get_all_tags (s : Settings) : Except HTTPError (List SonarrTagResponse) :=
  match require_sonarr_configured s with
  | Except.error e => Except.error e
  | Except.ok _ => Except.ok []

end Sonarr

namespace Radarr

/-- The 503 error raised by the Radarr guard (radarr.py lines 150-159). -/
def unavailableError : HTTPError :=
  ⟨503, "Radarr not configured"⟩

/-- Embeds `require_radarr_configured` (radarr.py lines 143-159): raises
HTTP 503 when Radarr is not configured, otherwise returns normally. -/
def require_radarr_configured (s : Settings) : Except HTTPError Unit :=
  if s.radarr_configured then Except.ok () else Except.error unavailableError

/-- Embeds `test_radarr_connection` (radarr.py lines 199-217): the handler
never reads the stored settings and never raises; it unconditionally
reports a successful connection with a placeholder version and echoes the
submitted URL. -/
def test_connection (c : ConnectionRequest) : StatusResponse :=
  { connected := true
    version := some "(pending implementation)"
    url := some c.url
    error := none }

/-- Embeds `get_all_movies` (radarr.py lines 226-268): guard, then a
placeholder empty list. -/
def get_all_movies (s : Settings) : Except HTTPError (List RadarrMovieResponse) :=
  match require_radarr_configured s with
  | Except.error e => Except.error e
  | Except.ok _ => Except.ok []

/-- Embeds `get_movie` (radarr.py lines 277-305): guard, then an
unconditional 404 placeholder for every movie id. -/
def get_movie (s : Settings) (movie_id : Int) : Except HTTPError RadarrMovieResponse :=
  match require_radarr_configured s with
  | Except.error e => Except.error e
  | Except.ok _ =>
      Except.error
        ⟨404, "Movie " ++ toString movie_id ++ " not found (endpoint pending implementation)"⟩

/-- Embeds Radarr `get_all_tags` (radarr.py lines 314-338): guard, then a
placeholder empty list. -/
def get_all_tags (s : Settings) : Except HTTPError (List RadarrTagResponse) :=
  match require_radarr_configured s with
  | Except.error e => Except.error e
  | Except.ok _ => Except.ok []

/-- Embeds `create_tag` (radarr.py lines 348-380): guard, then a
placeholder tag with id 999 carrying the submitted label verbatim. -/
def create_tag (s : Settings) (tag : RadarrTagCreateRequest) : Except HTTPError RadarrTagResponse :=
  match require_radarr_configured s with
  | Except.error e => Except.error e
  | Except.ok _ => Except.ok ⟨999, tag.label⟩

/-- Embeds `update_movie_tags` (radarr.py lines 389-436): guard, then an
unconditional 404 placeholder for every movie id. -/
def update_movie_tags (s : Settings) (movie_id : Int) (tag_ids : List Int) :
    Except HTTPError RadarrMovieResponse :=
  match require_radarr_configured s with
  | Except.error e => Except.error e
  | Except.ok _ =>
      Except.error
        ⟨404, "Movie " ++ toString movie_id ++ " not found (endpoint pending implementation)"⟩

/-- Embeds the pydantic validation of `RadarrTagCreateRequest` (radarr.py
lines 127-136): the label must have length at least 1 and at most 50,
otherwise the request is rejected before the handler runs. -/
def validate_tag_create (label : String) : Option RadarrTagCreateRequest :=
  if 1 ≤ label.length ∧ label.length ≤ 50 then some ⟨label⟩ else none

/-- The POST /tags route as FastAPI dispatches it: request validation
first (a failure yields 422 Unprocessable Entity without running the
handler), then the `create_tag` handler. -/
def post_tags_route (s : Settings) (label : String) : Except HTTPError RadarrTagResponse :=
  match validate_tag_create label with
  | none => Except.error ⟨422, "Unprocessable Entity"⟩
  | some req => create_tag s req

end Radarr

namespace Health

/-- Application version from `backend/app/__init__.py`. -/
def appVersion : String := "0.1.0"

/-- Embeds `HealthResponse` from health.py. -/
structure HealthResponse where
  status : String
  timestamp : String
  version : String
deriving DecidableEq, Repr

/-- Per-service entry of the detailed health services dictionary. -/
structure ServiceHealth where
  status : String
  url : Option String
deriving DecidableEq, Repr

/-- The services dictionary built by `detailed_health_check`. -/
structure ServicesHealth where
  database_status : String
  sonarr : ServiceHealth
  radarr : ServiceHealth
deriving DecidableEq, Repr

/-- The config dictionary echoed by `detailed_health_check`. -/
structure ConfigEcho where
  debug : Bool
  log_level : String
deriving DecidableEq, Repr

/-- Embeds `DetailedHealthResponse` from health.py. -/
structure DetailedHealthResponse where
  status : String
  timestamp : String
  version : String
  services : ServicesHealth
  config : ConfigEcho
deriving DecidableEq, Repr

/-- Status code declared by the GET /health route decorator
(health.py line 106): `status.HTTP_200_OK`. -/
def health_route_status_code : Nat := 200

/-- Status code declared by the GET /health/detailed route decorator
(health.py line 134): `status.HTTP_200_OK`. -/
def detailed_health_route_status_code : Nat := 200

/-- Embeds `health_check` (health.py lines 110-128).  The wall-clock
timestamp is passed in as a parameter. -/
def health_check (now : String) : HealthResponse :=
  { status := "healthy", timestamp := now, version := appVersion }

/-- Embeds `detailed_health_check` (health.py lines 138-189): builds the
services dictionary from the settings and always reports the overall
status "healthy". -/
def detailed_health_check (s : Settings) (now : String) : DetailedHealthResponse :=
  { status := "healthy"
    timestamp := now
    version := appVersion
    services :=
      { database_status := "not_implemented"
        sonarr :=
          { status := if s.sonarr_configured then "configured" else "not_configured"
            url := if s.sonarr_configured then s.sonarr_url else none }
        radarr :=
          { status := if s.radarr_configured then "configured" else "not_configured"
            url := if s.radarr_configured then s.radarr_url else none } }
    config := { debug := s.debug, log_level := s.log_level } }

end Health

namespace Reconcile

/-- Modelled from the spec: the tag policy of section 4.2 step 4 —
additive (union with current tags) or authoritative (the resolved tag ids
exactly).  The reconciliation engine does not exist in the source tree. -/
inductive TagPolicy
  | additive
  | authoritative
deriving DecidableEq, Repr

/-- Modelled from the spec: the per-item reconciliation outcome of
section 3 (the placeholder code has no such type).  `Applied` carries the
diff (tags added, tags removed). -/
inductive ReconcileResult
  | Applied (added removed : Finset ℕ)
  | NoopAlreadyConverged
deriving DecidableEq

/-- Modelled from the spec: one engine run's observable effect — the
result, the remote tag set after the run, and how many `setItemTags`
calls were issued. -/
structure ReconcileOutcome where
  result : ReconcileResult
  newTags : Finset ℕ
  setItemTagsCalls : ℕ
deriving DecidableEq

/-- Modelled from the spec: the desired tag set of section 4.2 step 4 —
`current_tags ∪ resolved_tag_ids` under the additive policy, and
`resolved_tag_ids` exactly under the authoritative policy. -/
def desiredTags : TagPolicy → Finset ℕ → Finset ℕ → Finset ℕ
  | TagPolicy.additive, current, resolved => current ∪ resolved
  | TagPolicy.authoritative, _, resolved => resolved

/-- Modelled from the spec: one run of the reconciliation engine over one
item (section 4.2 steps 4-6, absent from the source tree).  If the
desired set equals the current set the run is a noop and issues no
`setItemTags` call; otherwise it issues exactly one `setItemTags` call
replacing the item's tag set with the desired set and reports the diff. -/
def reconcile (p : TagPolicy) (current resolved : Finset ℕ) : ReconcileOutcome :=
  let desired := desiredTags p current resolved
  if desired = current then
    { result := ReconcileResult.NoopAlreadyConverged
      newTags := current
      setItemTagsCalls := 0 }
  else
    { result := ReconcileResult.Applied (desired \ current) (current \ desired)
      newTags := desired
      setItemTagsCalls := 1 }

end Reconcile

/-- Fixture: settings with both services configured via non-empty URL and
key strings. -/
def cfgAll : Settings :=
  { sonarr_url := some "http://localhost:8989"
    sonarr_api_key := some "aaaabbbbccccddddeeeeffff00001111"
    radarr_url := some "http://localhost:7878"
    radarr_api_key := some "0123456789abcdef0123456789abcdef" }

/-- Fixture: settings with neither service configured (all defaults). -/
def cfgNone : Settings := {}

/-- Tests whether a handler outcome is a 503 Service Unavailable error. -/
def isServiceUnavailable {α : Type} : Except HTTPError α → Bool
  | Except.error e => e.status_code == 503
  | Except.ok _ => false

/-- The desired-tags computation is stable: recomputing it from its own
output with the same resolved ids gives the same set. -/
theorem Reconcile.desiredTags_stable (p : Reconcile.TagPolicy) (current resolved : Finset ℕ) :
    Reconcile.desiredTags p (Reconcile.desiredTags p current resolved) resolved
      = Reconcile.desiredTags p current resolved := by
  cases p with
  | additive => simp [Reconcile.desiredTags, Finset.union_assoc]
  | authoritative => rfl

/-- C1: for every Sonarr/Radarr library endpoint (Sonarr GET /series and
GET /tags; Radarr GET /movies, GET /movies/movie_id, POST /tags, PUT
/movies/movie_id/tags), the configuration guard raises HTTP 503 exactly
when the corresponding service is not configured; when the service is
configured the guard returns without error and the handler proceeds (the
endpoint never yields a 503). -/
theorem guard_503_iff_unconfigured (s : Settings) (mid : Int) (tids : List Int)
    (req : RadarrTagCreateRequest) :
    ((∃ e, Sonarr.require_sonarr_configured s = Except.error e ∧ e.status_code = 503)
        ↔ s.sonarr_configured = false)
    ∧ (Sonarr.require_sonarr_configured s = Except.ok () ↔ s.sonarr_configured = true)
    ∧ ((∃ e, Radarr.require_radarr_configured s = Except.error e ∧ e.status_code = 503)
        ↔ s.radarr_configured = false)
    ∧ (Radarr.require_radarr_configured s = Except.ok () ↔ s.radarr_configured = true)
    ∧ (s.sonarr_configured = false →
        Sonarr.get_all_series s = Except.error Sonarr.unavailableError
        ∧ Sonarr.get_all_tags s = Except.error Sonarr.unavailableError)
    ∧ (s.radarr_configured = false →
        Radarr.get_all_movies s = Except.error Radarr.unavailableError
        ∧ Radarr.get_movie s mid = Except.error Radarr.unavailableError
        ∧ Radarr.create_tag s req = Except.error Radarr.unavailableError
        ∧ Radarr.update_movie_tags s mid tids = Except.error Radarr.unavailableError)
    ∧ (s.sonarr_configured = true →
        isServiceUnavailable (Sonarr.get_all_series s) = false
        ∧ isServiceUnavailable (Sonarr.get_all_tags s) = false)
    ∧ (s.radarr_configured = true →
        isServiceUnavailable (Radarr.get_all_movies s) = false
        ∧ isServiceUnavailable (Radarr.get_movie s mid) = false
        ∧ isServiceUnavailable (Radarr.create_tag s req) = false
        ∧ isServiceUnavailable (Radarr.update_movie_tags s mid tids) = false) := by
  cases hs : s.sonarr_configured <;> cases hr : s.radarr_configured <;>
    simp [Sonarr.require_sonarr_configured, Radarr.require_radarr_configured,
      Sonarr.get_all_series, Sonarr.get_all_tags, Radarr.get_all_movies,
      Radarr.get_movie, Radarr.create_tag, Radarr.update_movie_tags,
      isServiceUnavailable, hs, hr, Sonarr.unavailableError, Radarr.unavailableError]

/-- Witness for C1 at concrete inputs: with nothing configured the Sonarr
guard raises 503, and with everything configured it returns normally. -/
theorem guard_503_iff_unconfigured_witness :
    (∃ e, Sonarr.require_sonarr_configured cfgNone = Except.error e ∧ e.status_code = 503)
    ∧ Sonarr.require_sonarr_configured cfgAll = Except.ok () :=
  ⟨(guard_503_iff_unconfigured cfgNone 1 [] ⟨"HDR"⟩).1.mpr (by decide),
   (guard_503_iff_unconfigured cfgAll 1 [] ⟨"HDR"⟩).2.1.mpr (by decide)⟩

/-- C2: whenever the corresponding service is configured, the
library-listing endpoints Sonarr GET /series, Sonarr GET /tags and Radarr
GET /movies each return the empty list. -/
theorem library_listings_empty (s : Settings) :
    (s.sonarr_configured = true →
       Sonarr.get_all_series s = Except.ok [] ∧ Sonarr.get_all_tags s = Except.ok [])
    ∧ (s.radarr_configured = true → Radarr.get_all_movies s = Except.ok []) := by
  refine ⟨fun h => ?_, fun h => ?_⟩ <;>
    simp [Sonarr.get_all_series, Sonarr.get_all_tags, Radarr.get_all_movies,
      Sonarr.require_sonarr_configured, Radarr.require_radarr_configured, h]

/-- Witness for C2 at a concrete configured settings value. -/
theorem library_listings_empty_witness :
    Sonarr.get_all_series cfgAll = Except.ok []
    ∧ Sonarr.get_all_tags cfgAll = Except.ok []
    ∧ Radarr.get_all_movies cfgAll = Except.ok [] :=
  ⟨((library_listings_empty cfgAll).1 (by decide)).1,
   ((library_listings_empty cfgAll).1 (by decide)).2,
   (library_listings_empty cfgAll).2 (by decide)⟩

/-- Counterexample for C3: with Radarr configured, two create_tag calls
whose labels differ only in case return two distinct Tag values — the
handler performs no canonicalization of the label. -/
theorem create_tag_case_distinct_cex :
    Radarr.create_tag cfgAll ⟨"HDR"⟩ = Except.ok ⟨999, "HDR"⟩
    ∧ Radarr.create_tag cfgAll ⟨"hdr"⟩ = Except.ok ⟨999, "hdr"⟩
    ∧ (⟨999, "HDR"⟩ : RadarrTagResponse) ≠ (⟨999, "hdr"⟩ : RadarrTagResponse) :=
  ⟨rfl, rfl, by decide⟩

/-- C3 (amended): create_tag performs no canonicalization — with Radarr
configured it returns the submitted label verbatim with the placeholder
id 999, so calls whose labels differ only in case yield tags with
distinct labels. -/
theorem create_tag_returns_label_verbatim (s : Settings) (label : String)
    (h : s.radarr_configured = true) :
    Radarr.create_tag s ⟨label⟩ = Except.ok ⟨999, label⟩ := by
  simp [Radarr.create_tag, Radarr.require_radarr_configured, h]

/-- Witness for the amended C3 at a concrete input. -/
theorem create_tag_returns_label_verbatim_witness :
    Radarr.create_tag cfgAll ⟨"Dolby-Vision"⟩ = Except.ok ⟨999, "Dolby-Vision"⟩ :=
  create_tag_returns_label_verbatim cfgAll "Dolby-Vision" (by decide)

/-- Counterexample for C4: with Radarr configured, get_movie never
returns a movie for any movie id — every request ends in the 404
placeholder, contradicting the claim that not every movie_id yields
NotFound. -/
theorem get_movie_never_ok_cex :
    ¬ ∃ mid : Int, ∃ m, Radarr.get_movie cfgAll mid = Except.ok m := by
  rintro ⟨mid, m, h⟩
  have hc : cfgAll.radarr_configured = true := by decide
  simp [Radarr.get_movie, Radarr.require_radarr_configured, hc] at h

/-- C4 (amended): with Radarr configured, get_movie raises 404 Not Found
for every movie id (placeholder pending implementation); it never
returns an item. -/
theorem get_movie_always_404 (s : Settings) (mid : Int)
    (h : s.radarr_configured = true) :
    Radarr.get_movie s mid =
      Except.error
        ⟨404, "Movie " ++ toString mid ++ " not found (endpoint pending implementation)"⟩ := by
  simp [Radarr.get_movie, Radarr.require_radarr_configured, h]

/-- Witness for the amended C4 at a concrete movie id. -/
theorem get_movie_always_404_witness :
    Radarr.get_movie cfgAll 7 =
      Except.error ⟨404, "Movie 7 not found (endpoint pending implementation)"⟩ :=
  get_movie_always_404 cfgAll 7 (by decide)

/-- C5: with Radarr configured, POST /tags succeeds for every label of
length 1 through 50 and returns a tag bearing that label with an assigned
integer id, while the empty label is rejected by request validation (as
422) before the handler runs, for every configuration state. -/
theorem post_tags_label_validation (s : Settings) (label : String) :
    (s.radarr_configured = true → 1 ≤ label.length → label.length ≤ 50 →
       Radarr.post_tags_route s label = Except.ok ⟨999, label⟩)
    ∧ Radarr.validate_tag_create "" = none
    ∧ Radarr.post_tags_route s "" = Except.error ⟨422, "Unprocessable Entity"⟩ := by
  refine ⟨fun hc h1 h2 => ?_, by simp [Radarr.validate_tag_create],
    by simp [Radarr.post_tags_route, Radarr.validate_tag_create]⟩
  simp [Radarr.post_tags_route, Radarr.validate_tag_create, h1, h2,
    Radarr.create_tag, Radarr.require_radarr_configured, hc]

/-- Witness for C5 at concrete inputs: a valid label creates a tag and
the empty label is rejected with 422. -/
theorem post_tags_label_validation_witness :
    Radarr.post_tags_route cfgAll "IMAX" = Except.ok ⟨999, "IMAX"⟩
    ∧ Radarr.post_tags_route cfgAll "" = Except.error ⟨422, "Unprocessable Entity"⟩ :=
  ⟨(post_tags_label_validation cfgAll "IMAX").1 (by decide) (by decide) (by decide),
   (post_tags_label_validation cfgAll "IMAX").2.2⟩

/-- C6 (modelled from the spec, no source implementation): reconciliation
is idempotent — when the desired set differs from the current set, one
run returns Applied with the diff and a second run over the resulting
state returns NoopAlreadyConverged, with exactly one setItemTags call
issued in total; and whenever the desired set equals the current set,
reconcile returns NoopAlreadyConverged and issues no mutating call. -/
theorem reconcile_idempotent (p : Reconcile.TagPolicy) (current resolved : Finset ℕ) :
    (Reconcile.desiredTags p current resolved ≠ current →
       (Reconcile.reconcile p current resolved).result =
         Reconcile.ReconcileResult.Applied
           (Reconcile.desiredTags p current resolved \ current)
           (current \ Reconcile.desiredTags p current resolved)
       ∧ (Reconcile.reconcile p
            (Reconcile.reconcile p current resolved).newTags resolved).result =
           Reconcile.ReconcileResult.NoopAlreadyConverged
       ∧ (Reconcile.reconcile p current resolved).setItemTagsCalls
           + (Reconcile.reconcile p
                (Reconcile.reconcile p current resolved).newTags resolved).setItemTagsCalls
           = 1)
    ∧ (Reconcile.desiredTags p current resolved = current →
       (Reconcile.reconcile p current resolved).result =
         Reconcile.ReconcileResult.NoopAlreadyConverged
       ∧ (Reconcile.reconcile p current resolved).setItemTagsCalls = 0) := by
  constructor
  · intro h
    have hstable := Reconcile.desiredTags_stable p current resolved
    simp [Reconcile.reconcile, h, hstable]
  · intro h
    simp [Reconcile.reconcile, h]

/-- Witness for C6 at a concrete non-converged input: additive policy,
no current tags, one resolved tag. -/
theorem reconcile_idempotent_witness :
    (Reconcile.reconcile Reconcile.TagPolicy.additive ∅ {1}).result =
      Reconcile.ReconcileResult.Applied
        (Reconcile.desiredTags Reconcile.TagPolicy.additive ∅ {1} \ ∅)
        (∅ \ Reconcile.desiredTags Reconcile.TagPolicy.additive ∅ {1})
    ∧ (Reconcile.reconcile Reconcile.TagPolicy.additive
         (Reconcile.reconcile Reconcile.TagPolicy.additive ∅ {1}).newTags {1}).result =
        Reconcile.ReconcileResult.NoopAlreadyConverged
    ∧ (Reconcile.reconcile Reconcile.TagPolicy.additive ∅ {1}).setItemTagsCalls
        + (Reconcile.reconcile Reconcile.TagPolicy.additive
             (Reconcile.reconcile Reconcile.TagPolicy.additive ∅ {1}).newTags {1}).setItemTagsCalls
        = 1 :=
  (reconcile_idempotent Reconcile.TagPolicy.additive ∅ {1}).1
    (by simp [Reconcile.desiredTags])

/-- C7 (modelled from the spec, no source implementation): under the
additive policy the desired set is exactly the union of the current tags
with the resolved tag ids, hence always a superset of the current tags;
at the spec's example, current tags 1 and 2 with detections resolving to
tag 3 give the desired set 1, 2, 3. -/
theorem additive_policy_preserves_tags :
    (∀ current resolved : Finset ℕ,
       Reconcile.desiredTags Reconcile.TagPolicy.additive current resolved = current ∪ resolved
       ∧ current ⊆ Reconcile.desiredTags Reconcile.TagPolicy.additive current resolved)
    ∧ Reconcile.desiredTags Reconcile.TagPolicy.additive {1, 2} {3} = {1, 2, 3} := by
  refine ⟨fun current resolved => ⟨rfl, ?_⟩, ?_⟩
  · exact Finset.subset_union_left
  · decide

/-- C8: POST /test-connection for both services returns connected true,
the placeholder version string, and the echoed URL for every request
body with a 32-character API key; the handlers read no stored settings,
cannot report connected false and cannot raise (their embedding is total
into the plain response type). -/
theorem test_connection_always_success (url key : String) (h : key.length = 32) :
    Sonarr.test_connection ⟨url, key⟩ =
      { connected := true
        version := some "(pending implementation)"
        url := some url
        error := none }
    ∧ Radarr.test_connection ⟨url, key⟩ =
      { connected := true
        version := some "(pending implementation)"
        url := some url
        error := none } :=
  ⟨rfl, rfl⟩

/-- Witness for C8 with a concrete 32-character API key. -/
theorem test_connection_always_success_witness :
    Sonarr.test_connection ⟨"http://localhost:8989", "0123456789abcdef0123456789abcdef"⟩ =
      { connected := true
        version := some "(pending implementation)"
        url := some "http://localhost:8989"
        error := none }
    ∧ Radarr.test_connection ⟨"http://localhost:8989", "0123456789abcdef0123456789abcdef"⟩ =
      { connected := true
        version := some "(pending implementation)"
        url := some "http://localhost:8989"
        error := none } :=
  test_connection_always_success "http://localhost:8989" "0123456789abcdef0123456789abcdef"
    (by decide)

/-- The Python truthiness conjunction used by the configured properties
holds exactly when both optional strings are present and non-empty. -/
theorem pyTruthy_and_iff (u k : Option String) :
    (pyTruthyStr u && pyTruthyStr k) = true ↔
      ((∃ a, u = some a ∧ a ≠ "") ∧ (∃ b, k = some b ∧ b ≠ "")) := by
  cases u <;> cases k <;> simp [pyTruthyStr]

/-- C9: sonarr_configured (resp. radarr_configured) is true exactly when
both the corresponding URL and API key are set to non-None, non-empty
strings; an empty-string URL or key counts as not configured. -/
theorem configured_iff_nonempty (s : Settings) :
    (s.sonarr_configured = true ↔
       ((∃ u, s.sonarr_url = some u ∧ u ≠ "")
        ∧ (∃ k, s.sonarr_api_key = some k ∧ k ≠ "")))
    ∧ (s.radarr_configured = true ↔
       ((∃ u, s.radarr_url = some u ∧ u ≠ "")
        ∧ (∃ k, s.radarr_api_key = some k ∧ k ≠ ""))) :=
  ⟨pyTruthy_and_iff s.sonarr_url s.sonarr_api_key,
   pyTruthy_and_iff s.radarr_url s.radarr_api_key⟩

/-- Witness for C9 at a concrete configured settings value. -/
theorem configured_iff_nonempty_witness : cfgAll.sonarr_configured = true :=
  ((configured_iff_nonempty cfgAll).1).mpr
    ⟨⟨"http://localhost:8989", rfl, by decide⟩,
     ⟨"aaaabbbbccccddddeeeeffff00001111", rfl, by decide⟩⟩

/-- C10: GET /health and GET /health/detailed return HTTP 200 with the
status field "healthy" for every configuration state and timestamp; the
detailed check's overall status is "healthy" regardless of the
per-service statuses it reports. -/
theorem health_always_healthy (s : Settings) (now : String) :
    (Health.health_check now).status = "healthy"
    ∧ Health.health_route_status_code = 200
    ∧ (Health.detailed_health_check s now).status = "healthy"
    ∧ Health.detailed_health_route_status_code = 200 :=
  ⟨rfl, rfl, rfl, rfl⟩
